import Mathlib

/-!
Shallow embedding of the Pablo card-game backend (`backend/main.go`) and of
the spec-modelled operations whose implementation is exercised by
`backend/main_test.go` but absent from the provided source tree.

Pure data is translated directly; the per-game mutex, websocket connections
and broadcast side effects are dropped (the broadcast payloads that matter to
the claims, namely private card reveals, are returned as explicit values).
Go maps keyed by player id are modelled as association lists, and the
nondeterministic iteration order of a Go map is modelled by passing an
explicit enumeration order (a permutation of the key set) to the operations
that range over the map.
-/

/-- Translates the Go struct `Card` from `backend/main.go`. -/
structure Card where
  suit : String
  rank : String
  faceUp : Bool
deriving DecidableEq, Repr

/-- Represents the zero value of the Go `Card` struct, used for empty slots. -/
def Card.emptyCard : Card := { suit := "", rank := "", faceUp := false }

/-- Reflects the non-empty-slot test `card.Rank != "" || card.Suit != ""`
used by `getGameStateForPlayer` and by the hand-slot counting in the tests. -/
def Card.present (c : Card) : Bool := !(c.rank == "" && c.suit == "")

/-- Translates the Go struct `Player` (the websocket connection is dropped). -/
structure Player where
  id : String
  name : String
  cards : List Card
  ready : Bool
  score : Int
deriving DecidableEq, Repr

/-- Translates the Go struct `Game` (the mutex is dropped; the maps
`Players`, `DrawnCards`, `HasDrawnThisTurn` become association lists / lists
of keys). -/
structure Game where
  id : String
  players : List Player
  deck : List Card
  discardPile : List Card
  drawnCards : List (String × Card)
  hasDrawnThisTurn : List String
  pendingSpecialCard : String
  currentPlayer : String
  status : String
  pabloCalled : Bool
  pabloCaller : String
  stackableCardIndex : Int
  stackedSpecialCardPlayers : List String
deriving DecidableEq, Repr

def suitsList : List String := ["hearts", "diamonds", "clubs", "spades"]

def ranksList : List String :=
  ["A", "2", "3", "4", "5", "6", "7", "8", "9", "10", "J", "Q", "K"]

/-- Translates `createDeck`. -/
def createDeck : List Card :=
  suitsList.flatMap (fun s => ranksList.map (fun r => { suit := s, rank := r, faceUp := false }))

/-- Looks up a player by id, as `g.Players[playerID]` does on the Go map. -/
def findPlayer (g : Game) (pid : String) : Option Player :=
  g.players.find? (fun p => p.id == pid)

/-- Applies an in-place mutation of the player stored under `pid`, as Go code
does through the `*Player` pointer held in the map. -/
def updatePlayer (g : Game) (pid : String) (f : Player → Player) : Game :=
  { g with players := g.players.map (fun p => if p.id == pid then f p else p) }

def playerIDs (g : Game) : List String := g.players.map Player.id

/-- Models assignment `m[k] = v` on a Go map encoded as an association list. -/
def mapInsert (l : List (String × Card)) (k : String) (v : Card) : List (String × Card) :=
  if l.any (fun e => e.1 == k) then l.map (fun e => if e.1 == k then (k, v) else e)
  else (k, v) :: l

/-- Models `delete(m, k)` on a Go map encoded as an association list. -/
def mapErase (l : List (String × Card)) (k : String) : List (String × Card) :=
  l.filter (fun e => !(e.1 == k))

/-- Models the read `m[k]` (with its `ok` flag) on a Go map. -/
def lookupDrawn (l : List (String × Card)) (k : String) : Option Card :=
  (l.find? (fun e => e.1 == k)).map (fun e => e.2)

/-- Models `m[k] = true` on the Go set `HasDrawnThisTurn`. -/
def setInsert (l : List String) (s : String) : List String :=
  if l.contains s then l else s :: l

/-- Models `delete(m, k)` on the Go set `HasDrawnThisTurn`. -/
def setErase (l : List String) (s : String) : List String :=
  l.filter (fun x => !(x == s))

/-- Counts the hand slots holding an actual card, the quantity the spec calls
the number of non-empty hand slots. -/
def countNonEmpty (cards : List Card) : Nat :=
  (cards.filter Card.present).length

/-- Translates `getCardValue`. -/
def getCardValue (c : Card) : Int :=
  if c.rank == "K" && (c.suit == "hearts" || c.suit == "diamonds") then -1
  else if c.rank == "J" || c.rank == "Q" then 10
  else if c.rank == "K" then 10
  else if c.rank == "A" then 1
  else if c.rank == "2" then 2
  else if c.rank == "3" then 3
  else if c.rank == "4" then 4
  else if c.rank == "5" then 5
  else if c.rank == "6" then 6
  else if c.rank == "7" then 7
  else if c.rank == "8" then 8
  else if c.rank == "9" then 9
  else if c.rank == "10" then 10
  else 0

/-- Translates the per-player part of `EndRound`: reveal every card, then sum
`getCardValue` over the slots whose rank is non-empty. -/
def revealAndScore (p : Player) : Player :=
  let cards := p.cards.map (fun c => { c with faceUp := true })
  { p with
    cards := cards
    score := (cards.filter (fun c => !(c.rank == ""))).foldl (fun acc c => acc + getCardValue c) 0 }

/-- Translates `EndRound`. -/
def endRound (g : Game) : Game :=
  { g with
    status := "ended"
    pabloCalled := false
    pabloCaller := ""
    players := g.players.map revealAndScore }

/-- Translates `DrawCard`. The returned `Bool` is the Go return value. -/
def drawCard (pid : String) (g : Game) : Game × Bool :=
  if g.currentPlayer != pid then (g, false)
  else
    match g.deck with
    | [] => if g.status == "playing" then (endRound g, false) else (g, false)
    | c :: rest =>
      if g.hasDrawnThisTurn.contains pid then (g, false)
      else
        ({ g with
            deck := rest
            drawnCards := mapInsert g.drawnCards pid { c with faceUp := true }
            hasDrawnThisTurn := setInsert g.hasDrawnThisTurn pid }, true)

/-- Translates `DiscardDrawnCard`. -/
def discardDrawnCard (pid : String) (g : Game) : Game × Bool :=
  if g.currentPlayer != pid then (g, false)
  else
    match lookupDrawn g.drawnCards pid with
    | none => (g, false)
    | some dc =>
      let card := { dc with faceUp := true }
      let g1 := { g with
        discardPile := g.discardPile ++ [card]
        drawnCards := mapErase g.drawnCards pid }
      let g2 := { g1 with stackableCardIndex := (g1.discardPile.length : Int) - 1 }
      if card.rank == "7" || card.rank == "8" || card.rank == "9" then
        ({ g2 with pendingSpecialCard := card.rank }, true)
      else
        ({ g2 with pendingSpecialCard := "" }, true)

/-- Translates `SwapCard`. A missing current player would be a nil-pointer
dereference in Go; it is modelled as a rejected action (the branch is
unreachable because only the current player passes the first guard). -/
def swapCard (pid : String) (cardIndex : Int) (g : Game) : Game × Bool :=
  if g.currentPlayer != pid then (g, false)
  else
    match lookupDrawn g.drawnCards pid with
    | none => (g, false)
    | some dc =>
      match findPlayer g pid with
      | none => (g, false)
      | some p =>
        if cardIndex < 0 || (p.cards.length : Int) ≤ cardIndex then (g, false)
        else
          let oldCard := p.cards.getD cardIndex.toNat Card.emptyCard
          let g1 := updatePlayer g pid
            (fun q => { q with cards := q.cards.set cardIndex.toNat { dc with faceUp := false } })
          let g2 := { g1 with
            discardPile := g1.discardPile ++ [{ oldCard with faceUp := true }]
            drawnCards := mapErase g1.drawnCards pid }
          let g3 := { g2 with stackableCardIndex := (g2.discardPile.length : Int) - 1 }
          if oldCard.rank == "7" || oldCard.rank == "8" || oldCard.rank == "9" then
            ({ g3 with pendingSpecialCard := oldCard.rank }, true)
          else
            ({ g3 with pendingSpecialCard := "" }, true)

/-- Represents the private `cardRevealed` message that
`UseSpecialCardFromDiscard` sends through `sendToPlayer`. The card payload is
read through an optional lookup; in Go an index inside the checked range but
beyond the actual slice length would be an out-of-bounds access. -/
inductive Reveal where
  | own (index : Int) (card : Option Card)
  | other (playerID : String) (index : Int) (card : Option Card)
deriving DecidableEq, Repr

/-- Models the Go `params map[string]interface{}` of
`UseSpecialCardFromDiscard`: a field is `none` when the key is missing or the
type assertion (`.(float64)` / `.(string)`) fails. -/
structure SpecialParams where
  targetIndex : Option Int
  targetPlayerID : Option String
  player1ID : Option String
  card1Index : Option Int
  player2ID : Option String
  card2Index : Option Int
deriving DecidableEq, Repr

/-- Represents a `params` value with every key absent. -/
def SpecialParams.noParams : SpecialParams :=
  { targetIndex := none, targetPlayerID := none, player1ID := none,
    card1Index := none, player2ID := none, card2Index := none }

/-- Translates the `switch cardRank` body of `UseSpecialCardFromDiscard`:
the effect of the rank together with the private reveals it sends. -/
def specialEffect (pid cardRank : String) (params : SpecialParams) (g : Game) :
    Game × List Reveal :=
  if cardRank == "7" then
    match params.targetIndex with
    | none => (g, [])
    | some ti =>
      if 0 ≤ ti && ti < 4 then
        (g, [Reveal.own ti ((findPlayer g pid).bind (fun p => p.cards.get? ti.toNat))])
      else (g, [])
  else if cardRank == "8" then
    match params.targetPlayerID, params.targetIndex with
    | some tpid, some ti =>
      match findPlayer g tpid with
      | some tp =>
        if 0 ≤ ti && ti < 4 then
          (g, [Reveal.other tpid ti (tp.cards.get? ti.toNat)])
        else (g, [])
      | none => (g, [])
    | _, _ => (g, [])
  else if cardRank == "9" then
    match params.player1ID, params.card1Index, params.player2ID, params.card2Index with
    | some p1id, some i1, some p2id, some i2 =>
      match findPlayer g p1id with
      | some pl1 =>
        if 0 ≤ i1 && i1 < (pl1.cards.length : Int) then
          match findPlayer g p2id with
          | some pl2 =>
            if 0 ≤ i2 && i2 < (pl2.cards.length : Int) then
              (updatePlayer
                (updatePlayer g p1id
                  (fun p => { p with
                    cards := p.cards.set i1.toNat (pl2.cards.getD i2.toNat Card.emptyCard) }))
                p2id
                (fun p => { p with
                  cards := p.cards.set i2.toNat (pl1.cards.getD i1.toNat Card.emptyCard) }), [])
            else (g, [])
          | none => (g, [])
        else (g, [])
      | none => (g, [])
    | _, _, _, _ => (g, [])
  else (g, [])

/-- Translates the queue tail shared by every `UseSpecialCardFromDiscard`
return path after the effect: pop the head of `StackedSpecialCardPlayers`
and, when that player exists, hand them the turn and re-arm the pending
special card with `cardRank`. -/
def specialQueueAdvance (cardRank : String) (g : Game) : Game :=
  match g.stackedSpecialCardPlayers with
  | [] => g
  | h :: t =>
    let g1 := { g with stackedSpecialCardPlayers := t }
    if (findPlayer g1 h).isSome then
      { g1 with currentPlayer := h, pendingSpecialCard := cardRank }
    else g1

/-- Translates `UseSpecialCardFromDiscard`. -/
def useSpecialCardFromDiscard (pid cardRank : String) (params : SpecialParams) (g : Game) :
    Game × Bool × List Reveal :=
  if g.currentPlayer != pid then (g, false, [])
  else
    match g.discardPile.getLast? with
    | none => (g, false, [])
    | some topCard =>
      if topCard.rank != cardRank then (g, false, [])
      else if g.pendingSpecialCard != cardRank then (g, false, [])
      else
        let er := specialEffect pid cardRank params g
        let g2 := { er.1 with pendingSpecialCard := "" }
        (specialQueueAdvance cardRank g2, true, er.2)

/-- Translates `SkipSpecialCard`. -/
def skipSpecialCard (pid : String) (g : Game) : Game :=
  if g.currentPlayer != pid then g
  else
    let g1 := { g with pendingSpecialCard := "" }
    match g1.stackedSpecialCardPlayers with
    | [] => g1
    | h :: t =>
      let g2 := { g1 with stackedSpecialCardPlayers := t }
      if (findPlayer g2 h).isSome then
        let g3 := { g2 with currentPlayer := h }
        match g3.discardPile.getLast? with
        | none => g3
        | some topCard =>
          if topCard.rank == "7" || topCard.rank == "8" || topCard.rank == "9" then
            { g3 with pendingSpecialCard := topCard.rank }
          else g3
      else g2

/-- Translates `CallPablo`. -/
def callPablo (pid : String) (g : Game) : Game :=
  if g.status != "playing" || g.pabloCalled then g
  else { g with pabloCalled := true, pabloCaller := pid }

/-- Translates `EndTurn`. The Go function derives the rotation order by
iterating over the `Players` map, whose iteration order is unspecified; that
order is the explicit argument `order` here, constrained in the reachability
relation to be a permutation of the key set. -/
def endTurn (order : List String) (pid : String) (g : Game) : Game :=
  if g.currentPlayer != pid then g
  else if (lookupDrawn g.drawnCards pid).isSome then g
  else if
      (match g.discardPile.getLast? with
       | some topCard =>
         (topCard.rank == "7" || topCard.rank == "8" || topCard.rank == "9")
           && g.pendingSpecialCard != ""
       | none => false) then g
  else
    match order.findIdx? (fun x => x == pid) with
    | none => g
    | some i =>
      let nextIdx := (i + 1) % order.length
      let g1 := { g with
        drawnCards := mapErase g.drawnCards pid
        hasDrawnThisTurn := setErase g.hasDrawnThisTurn pid }
      if g1.pabloCalled && (order.getD nextIdx "" == g1.pabloCaller) then
        endRound g1
      else
        let g2 := { g1 with currentPlayer := order.getD nextIdx "" }
        { g2 with hasDrawnThisTurn := setErase g2.hasDrawnThisTurn g2.currentPlayer }

/-- Translates `StackCard` from `backend/main.go` (the version present in the
source tree, which removes the stacked slot from the hand slice). The string
result messages are dropped; the `Bool` is the success flag. -/
def stackCard (pid : String) (cardIndex : Int) (g : Game) : Game × Bool :=
  if g.discardPile == [] then (g, false)
  else
    let topCardIndex : Int := (g.discardPile.length : Int) - 1
    if g.stackableCardIndex == -1 then (g, false)
    else if g.stackableCardIndex != topCardIndex then (g, false)
    else
      match findPlayer g pid with
      | none => (g, false)
      | some player =>
        if cardIndex < 0 || (player.cards.length : Int) ≤ cardIndex then (g, false)
        else
          let cardToStack := player.cards.getD cardIndex.toNat Card.emptyCard
          if cardToStack.rank == "" then (g, false)
          else
            let topCard := g.discardPile.getD topCardIndex.toNat Card.emptyCard
            if topCard.rank == "" then (g, false)
            else if cardToStack.rank != topCard.rank then
              match g.deck with
              | [] => (g, false)
              | c :: rest =>
                let g1 := { g with deck := rest }
                let g2 := updatePlayer g1 pid
                  (fun p => { p with cards := p.cards ++ [{ c with faceUp := false }] })
                (g2, false)
            else
              let g1 := { g with
                discardPile := g.discardPile ++ [{ cardToStack with faceUp := true }] }
              let isSpecial :=
                topCard.rank == "7" || topCard.rank == "8" || topCard.rank == "9"
              let g2 := updatePlayer g1 pid
                (fun p => { p with cards := p.cards.eraseIdx cardIndex.toNat })
              let g3 :=
                if isSpecial && !(g2.stackedSpecialCardPlayers.contains pid) then
                  { g2 with stackedSpecialCardPlayers := g2.stackedSpecialCardPlayers ++ [pid] }
                else g2
              ({ g3 with stackableCardIndex := -1 }, true)

/-- Translates the inner dealing loop of `StartGame`: a hand is reset to four
zero-value cards and slot `i` receives the top of the deck whenever the deck
is non-empty. -/
def fillSlots : List Card → List Card → List Card × List Card
  | [], deck => ([], deck)
  | _ :: slots, [] =>
    let r := fillSlots slots []
    (Card.emptyCard :: r.1, r.2)
  | _ :: slots, c :: deck =>
    let r := fillSlots slots deck
    (c :: r.1, r.2)

/-- Translates the `for playerID := range g.Players` dealing loop of
`StartGame`, iterating in the explicit map order `order`. -/
def dealAll (order : List String) (g : Game) : Game :=
  order.foldl
    (fun acc pid =>
      match findPlayer acc pid with
      | none => acc
      | some _ =>
        let r := fillSlots (List.replicate 4 Card.emptyCard) acc.deck
        let acc1 := updatePlayer acc pid (fun p => { p with cards := r.1 })
        { acc1 with deck := r.2 })
    g

/-- Translates `StartGame`; `order` is the map iteration order of the dealing
loop and `first` the key produced by the first-player loop. -/
def startGame (order : List String) (first : String) (g : Game) : Game :=
  if g.players.length < 2 then g
  else
    let g1 := { g with status := "playing" }
    let g2 := dealAll order g1
    { g2 with currentPlayer := first }

/-- Builds the state of a game in which `NewGame` was followed by one
successful `AddPlayer` per seat: `deck` is the shuffled deck and each seat
holds a player with four zero-value cards. -/
def mkLobby (gid : String) (deck : List Card) (seats : List (String × String)) : Game :=
  { id := gid
    players := seats.map (fun s =>
      { id := s.1, name := s.2, cards := List.replicate 4 Card.emptyCard,
        ready := false, score := 0 })
    deck := deck
    discardPile := []
    drawnCards := []
    hasDrawnThisTurn := []
    pendingSpecialCard := ""
    currentPlayer := ""
    status := "waiting"
    pabloCalled := false
    pabloCaller := ""
    stackableCardIndex := -1
    stackedSpecialCardPlayers := [] }

/-- Characterises the states produced by `NewGame` followed by 2 to 6
distinct `AddPlayer` calls, the precondition of `startMatch`. -/
def Lobby (g : Game) : Prop :=
  ∃ gid deck seats,
    g = mkLobby gid deck seats ∧ deck.Perm createDeck ∧
    (seats.map Prod.fst).Nodup ∧ 2 ≤ seats.length ∧ seats.length ≤ 6

/-- Describes the match states reachable from a started match through the
public operations named by the conservation claim: `startMatch`, `draw`,
`discardDrawn`, `swapDrawn`, `useSpecialCard`, `skip`, `endTurn`, `stack`.
Operations that read the Go player map in iteration order take that order as
an explicit permutation of the key set. -/
inductive Reachable : Game → Prop where
  | start (g : Game) (order : List String) (first : String) :
      Lobby g → order.Perm (playerIDs g) → first ∈ playerIDs g →
      Reachable (startGame order first g)
  | draw (g : Game) (pid : String) :
      Reachable g → Reachable (drawCard pid g).1
  | discard (g : Game) (pid : String) :
      Reachable g → Reachable (discardDrawnCard pid g).1
  | swap (g : Game) (pid : String) (i : Int) :
      Reachable g → Reachable (swapCard pid i g).1
  | special (g : Game) (pid rank : String) (ps : SpecialParams) :
      Reachable g → Reachable (useSpecialCardFromDiscard pid rank ps g).1
  | skip (g : Game) (pid : String) :
      Reachable g → Reachable (skipSpecialCard pid g)
  | turn (g : Game) (order : List String) (pid : String) :
      Reachable g → order.Perm (playerIDs g) → Reachable (endTurn order pid g)
  | stack (g : Game) (pid : String) (i : Int) :
      Reachable g → Reachable (stackCard pid i g).1

/-- Computes the left-hand side of the conservation claim: cards in the deck,
cards in the discard pile, non-empty hand slots, plus one when a drawn card
is pending. -/
def conservationSum (g : Game) : Nat :=
  g.deck.length + g.discardPile.length +
    (g.players.map (fun p => countNonEmpty p.cards)).sum +
    (if g.drawnCards == [] then 0 else 1)

/-- Translates the per-card body of the projection loop in
`getGameStateForPlayer`: `none` when the slot is skipped (empty slot),
otherwise the card actually placed in the per-viewer snapshot. -/
def projectCard (viewerID pid status : String) (card : Card) : Option Card :=
  if card.rank != "" || card.suit != "" then
    if pid == viewerID || card.faceUp || status == "ended" then
      some { suit := card.suit, rank := card.rank,
             faceUp := card.faceUp || status == "ended" }
    else
      some { suit := "", rank := "", faceUp := false }
  else none

/-- Translates the card list a viewer receives for one player in
`getGameStateForPlayer`. -/
def projectCards (viewerID pid status : String) (cards : List Card) : List Card :=
  cards.filterMap (projectCard viewerID pid status)

/-- Modelled from the spec: the give-back obligation record
`pendingGive: optional {actorID, targetPlayerID, targetSlot}` of spec section 3.
The struct `PendingGive` (fields `ActorID`, `TargetPlayerID`, `TargetIndex`)
is referenced by `TestStackOpponentCard` and `TestHandleGiveCard` in
`backend/main_test.go` but its declaration is not in the provided source. -/
structure PendingGive where
  actorID : String
  targetPlayerID : String
  targetIndex : Int
deriving DecidableEq, Repr

/-- Modelled from the spec: the match state of spec section 3 extended with the
`pendingGive` field, which the `Game` struct in the provided
`backend/main.go` lacks although `backend/main_test.go` reads and writes
`game.PendingGive`. -/
structure GameG where
  base : Game
  pendingGive : Option PendingGive
deriving DecidableEq, Repr

def stackMid (actorID targetPlayerID : String) (slot : Int) (target : Player)
    (topCard : Card) (b : Game) : Game :=
  let b1 := { b with
    discardPile :=
      b.discardPile ++ [{ target.cards.getD slot.toNat Card.emptyCard with faceUp := true }] }
  let b2 := updatePlayer b1 targetPlayerID
    (fun p => { p with cards := p.cards.set slot.toNat Card.emptyCard })
  let b3 :=
    if (topCard.rank == "7" || topCard.rank == "8" || topCard.rank == "9")
        && !(b2.stackedSpecialCardPlayers.contains actorID) then
      { b2 with stackedSpecialCardPlayers := b2.stackedSpecialCardPlayers ++ [actorID] }
    else b2
  { b3 with stackableCardIndex := -1 }

/-- Modelled from the spec: the base-state outcome of a successful stack,
section 4.4 — source card face-up onto the pile, vacated slot becomes an
explicit empty marker, idempotent queue append when the stacked-on card is
special, stackable pointer cleared, and the zero-card-win check of section
4.5 firing round termination at once when any player has no card left. -/
def stackFinal (actorID targetPlayerID : String) (slot : Int) (target : Player)
    (topCard : Card) (b : Game) : Game :=
  if (stackMid actorID targetPlayerID slot target topCard b).players.any
      (fun p => countNonEmpty p.cards == 0) then
    endRound (stackMid actorID targetPlayerID slot target topCard b)
  else stackMid actorID targetPlayerID slot target topCard b

/-- Modelled from the spec: the stacking operation of spec section 4.4 in the
form exercised by `main_test.go` (`StackCard` / `StackOpponentCard` with
`countNonEmptyCards`), which is missing from the provided `backend/main.go`:
a successful stack leaves an explicit empty marker in the vacated slot
(sparse hand model, spec sections 3 and 9), sets the give-back obligation when
the target is an opponent, and fires round termination immediately when any
player reaches zero non-empty slots (zero-card win, spec sections 4.4-4.5).
`actorID` is the acting player; `targetPlayerID` the owner of the stacked
slot (`stackOwn` is the case `targetPlayerID = actorID`); a rank-mismatch
failure gives the actor a penalty card from the deck. -/
def stackSpec (actorID targetPlayerID : String) (slot : Int) (g : GameG) : GameG × Bool :=
  if g.base.discardPile == [] then (g, false)
  else if g.base.stackableCardIndex == -1 then (g, false)
  else if g.base.stackableCardIndex != (g.base.discardPile.length : Int) - 1 then (g, false)
  else
    match findPlayer g.base targetPlayerID with
    | none => (g, false)
    | some target =>
      if slot < 0 || (target.cards.length : Int) ≤ slot then (g, false)
      else if (target.cards.getD slot.toNat Card.emptyCard).rank == "" then (g, false)
      else if (g.base.discardPile.getD ((g.base.discardPile.length : Int) - 1).toNat
          Card.emptyCard).rank == "" then (g, false)
      else if (target.cards.getD slot.toNat Card.emptyCard).rank
          != (g.base.discardPile.getD ((g.base.discardPile.length : Int) - 1).toNat
              Card.emptyCard).rank then
        match g.base.deck with
        | [] => (g, false)
        | c :: rest =>
          let b1 := updatePlayer ({ g.base with deck := rest }) actorID
            (fun p => { p with cards := p.cards ++ [{ c with faceUp := false }] })
          ({ g with base := b1 }, false)
      else
        ({ base :=
            stackFinal actorID targetPlayerID slot target
              (g.base.discardPile.getD ((g.base.discardPile.length : Int) - 1).toNat
                Card.emptyCard)
              g.base,
           pendingGive :=
            if actorID != targetPlayerID then
              some { actorID := actorID, targetPlayerID := targetPlayerID,
                     targetIndex := slot }
            else g.pendingGive }, true)

/-- Modelled from the spec: `giveCard(actorID, sourceSlot)` of spec section
4.4, legal only while `pendingGive.actorID == actorID`; it moves the
identified card from the actor hand (leaving that slot empty) into the
previously vacated target slot, face-down, then clears `pendingGive`. The Go
function `HandleGiveCard` is called by `TestHandleGiveCard` but is not in the
provided source. -/
def handleGiveCard (actorID : String) (sourceSlot : Int) (g : GameG) : GameG :=
  match g.pendingGive with
  | none => g
  | some pg =>
    if pg.actorID != actorID then g
    else
      match findPlayer g.base actorID with
      | none => g
      | some actor =>
        if sourceSlot < 0 || (actor.cards.length : Int) ≤ sourceSlot then g
        else
          let card := actor.cards.getD sourceSlot.toNat Card.emptyCard
          let b1 := updatePlayer g.base actorID
            (fun p => { p with cards := p.cards.set sourceSlot.toNat Card.emptyCard })
          let b2 := updatePlayer b1 pg.targetPlayerID
            (fun p => { p with
              cards := p.cards.set pg.targetIndex.toNat { card with faceUp := false } })
          { base := b2, pendingGive := none }

/-- Enumerates the public actions of the spec-modelled state machine. -/
inductive GAction where
  | draw
  | discardDrawn
  | swapDrawn (slot : Int)
  | useSpecial (rank : String) (ps : SpecialParams)
  | skipSpecial
  | turnEnd (order : List String)
  | stack (target : String) (slot : Int)
  | give (slot : Int)
deriving DecidableEq, Repr

/-- Lifts an operation on the base state to the extended state. -/
def liftBase (f : Game → Game) (g : GameG) : GameG := { g with base := f g.base }

/-- Dispatches an action of player `pid` to the operation implementing it. -/
def gstepRun (pid : String) (a : GAction) (g : GameG) : GameG :=
  match a with
  | .draw => liftBase (fun b => (drawCard pid b).1) g
  | .discardDrawn => liftBase (fun b => (discardDrawnCard pid b).1) g
  | .swapDrawn slot => liftBase (fun b => (swapCard pid slot b).1) g
  | .useSpecial rank ps => liftBase (fun b => (useSpecialCardFromDiscard pid rank ps b).1) g
  | .skipSpecial => liftBase (skipSpecialCard pid) g
  | .turnEnd order => liftBase (endTurn order pid) g
  | .stack target slot => (stackSpec pid target slot g).1
  | .give slot => handleGiveCard pid slot g

/-- Modelled from the spec: the legality gate of spec section 3, "while set,
the actor's only legal action is give card to fill slot" — while
`pendingGive` names `pid` as the obligated actor, every action of `pid`
other than `giveCard` is rejected without touching the state. -/
def gstep (pid : String) (a : GAction) (g : GameG) : GameG :=
  match g.pendingGive with
  | some pg =>
    if pg.actorID == pid then
      match a with
      | .give slot => handleGiveCard pid slot g
      | _ => g
    else gstepRun pid a g
  | none => gstepRun pid a g

/-! ### Helper lemmas -/

theorem findPlayer_id {g : Game} {pid : String} {p : Player}
    (h : findPlayer g pid = some p) : p.id = pid := by
  unfold findPlayer at h
  have := List.find?_some h
  simpa using this

theorem find?_map_of_id_preserving (l : List Player) (q r : String) (f : Player → Player)
    (hf : ∀ p, (f p).id = p.id) :
    (l.map (fun p => if p.id == q then f p else p)).find? (fun p => p.id == r)
      = (l.find? (fun p => p.id == r)).map (fun p => if p.id == q then f p else p) := by
  induction l with
  | nil => rfl
  | cons a t ih =>
    have hid : (if (a.id == q) = true then f a else a).id = a.id := by
      by_cases h : (a.id == q) = true
      · rw [if_pos h]; exact hf a
      · rw [if_neg h]
    by_cases hr : (a.id == r) = true
    · have hmr : ((if (a.id == q) = true then f a else a).id == r) = true := by
        rw [hid]; exact hr
      simp only [List.map_cons, List.find?_cons]
      rw [hmr, hr]
      rfl
    · have hmr : ((if (a.id == q) = true then f a else a).id == r) = false := by
        rw [hid]; exact Bool.of_not_eq_true hr
      have hr2 : (a.id == r) = false := Bool.of_not_eq_true hr
      simp only [List.map_cons, List.find?_cons]
      rw [hmr, hr2]
      exact ih

theorem findPlayer_updatePlayer (g : Game) (q r : String) (f : Player → Player)
    (hf : ∀ p, (f p).id = p.id) :
    findPlayer (updatePlayer g q f) r
      = (findPlayer g r).map (fun p => if p.id == q then f p else p) := by
  unfold findPlayer updatePlayer
  exact find?_map_of_id_preserving g.players q r f hf

theorem playerIDs_updatePlayer (g : Game) (q : String) (f : Player → Player)
    (hf : ∀ p, (f p).id = p.id) :
    playerIDs (updatePlayer g q f) = playerIDs g := by
  unfold playerIDs updatePlayer
  simp only [List.map_map]
  apply List.map_congr_left
  intro p _
  show (if (p.id == q) = true then f p else p).id = p.id
  by_cases h : (p.id == q) = true
  · rw [if_pos h]; exact hf p
  · rw [if_neg h]

theorem findPlayer_isSome_iff (g : Game) (x : String) :
    (findPlayer g x).isSome ↔ x ∈ playerIDs g := by
  unfold findPlayer playerIDs
  rw [List.find?_isSome]
  constructor
  · rintro ⟨p, hp, hpx⟩
    exact List.mem_map.mpr ⟨p, hp, by simpa using hpx⟩
  · rintro hx
    rcases List.mem_map.mp hx with ⟨p, hp, hpx⟩
    exact ⟨p, hp, by simpa using hpx⟩

theorem countNonEmpty_append_present (l : List Card) (c : Card) (hc : Card.present c = true) :
    countNonEmpty (l ++ [c]) = countNonEmpty l + 1 := by
  unfold countNonEmpty
  rw [List.filter_append]
  simp [hc]

theorem playerIDs_updateCards (g : Game) (q : String) (F : Player → List Card) :
    playerIDs (updatePlayer g q (fun p => { p with cards := F p })) = playerIDs g :=
  playerIDs_updatePlayer g q _ (fun _ => rfl)

theorem specialEffect_core (pid rank : String) (ps : SpecialParams) (g : Game) :
    (specialEffect pid rank ps g).1.pendingSpecialCard = g.pendingSpecialCard ∧
    (specialEffect pid rank ps g).1.currentPlayer = g.currentPlayer ∧
    (specialEffect pid rank ps g).1.stackedSpecialCardPlayers = g.stackedSpecialCardPlayers ∧
    playerIDs (specialEffect pid rank ps g).1 = playerIDs g := by
  unfold specialEffect
  repeat' split
  all_goals refine ⟨rfl, rfl, rfl, ?_⟩
  all_goals
    first
      | rfl
      | rw [playerIDs_updateCards, playerIDs_updateCards]

theorem find?_map_all_id_preserving (l : List Player) (r : String) (f : Player → Player)
    (hf : ∀ p, (f p).id = p.id) :
    (l.map f).find? (fun p => p.id == r) = (l.find? (fun p => p.id == r)).map f := by
  induction l with
  | nil => rfl
  | cons a t ih =>
    by_cases hr : (a.id == r) = true
    · have hmr : ((f a).id == r) = true := by rw [hf a]; exact hr
      simp only [List.map_cons, List.find?_cons]
      rw [hmr, hr]
      rfl
    · have hmr : ((f a).id == r) = false := by rw [hf a]; exact Bool.of_not_eq_true hr
      have hr2 : (a.id == r) = false := Bool.of_not_eq_true hr
      simp only [List.map_cons, List.find?_cons]
      rw [hmr, hr2]
      exact ih

theorem findPlayer_endRound (b : Game) (r : String) :
    findPlayer (endRound b) r = (findPlayer b r).map revealAndScore := by
  unfold findPlayer endRound
  exact find?_map_all_id_preserving b.players r revealAndScore (fun _ => rfl)

theorem getD_set_self (l : List Card) (i : Nat) (x d : Card) (h : i < l.length) :
    (l.set i x).getD i d = x := by
  induction l generalizing i with
  | nil => simp at h
  | cons a t ih =>
    cases i with
    | zero => rfl
    | succ n => exact ih n (by simpa using h)

theorem getD_set_ne (l : List Card) (i j : Nat) (x d : Card) (h : i ≠ j) :
    (l.set i x).getD j d = l.getD j d := by
  induction l generalizing i j with
  | nil => rfl
  | cons a t ih =>
    cases i with
    | zero =>
      cases j with
      | zero => exact absurd rfl h
      | succ m => rfl
    | succ n =>
      cases j with
      | zero => rfl
      | succ m => exact ih n m (by omega)

theorem getD_map_reveal (l : List Card) (j : Nat) :
    ((l.map (fun c => { c with faceUp := true })).getD j Card.emptyCard).rank
        = (l.getD j Card.emptyCard).rank
      ∧ ((l.map (fun c => { c with faceUp := true })).getD j Card.emptyCard).suit
        = (l.getD j Card.emptyCard).suit := by
  induction l generalizing j with
  | nil => exact ⟨rfl, rfl⟩
  | cons a t ih =>
    cases j with
    | zero => exact ⟨rfl, rfl⟩
    | succ n => exact ih n

theorem revealAndScore_cards_length (p : Player) :
    (revealAndScore p).cards.length = p.cards.length := by
  unfold revealAndScore
  simp

theorem stackMid_players (a t : String) (s : Int) (target : Player) (topCard : Card) (b : Game) :
    (stackMid a t s target topCard b).players
      = b.players.map (fun p =>
          if p.id == t then { p with cards := p.cards.set s.toNat Card.emptyCard } else p) := by
  unfold stackMid updatePlayer
  dsimp only
  split <;> rfl

theorem findPlayer_stackMid (a t : String) (s : Int) (target : Player) (topCard : Card)
    (b : Game) (hfind : findPlayer b t = some target) :
    findPlayer (stackMid a t s target topCard b) t
      = some { target with cards := target.cards.set s.toNat Card.emptyCard } := by
  have hid : target.id = t := findPlayer_id hfind
  unfold findPlayer at hfind ⊢
  rw [stackMid_players]
  rw [find?_map_of_id_preserving b.players t t
        (fun p => { p with cards := p.cards.set s.toNat Card.emptyCard }) (fun _ => rfl),
      hfind]
  simp [hid]

theorem stackSpec_success (g : GameG) (actorID targetID : String) (slot : Int)
    (target : Player)
    (hne : g.base.discardPile ≠ [])
    (hstk : g.base.stackableCardIndex = (g.base.discardPile.length : Int) - 1)
    (hfind : findPlayer g.base targetID = some target)
    (h0 : 0 ≤ slot) (hlt : slot < (target.cards.length : Int))
    (hcr : (target.cards.getD slot.toNat Card.emptyCard).rank ≠ "")
    (htr : (g.base.discardPile.getD ((g.base.discardPile.length : Int) - 1).toNat
        Card.emptyCard).rank ≠ "")
    (heq : (target.cards.getD slot.toNat Card.emptyCard).rank
        = (g.base.discardPile.getD ((g.base.discardPile.length : Int) - 1).toNat
            Card.emptyCard).rank) :
    stackSpec actorID targetID slot g =
      ({ base :=
          stackFinal actorID targetID slot target
            (g.base.discardPile.getD ((g.base.discardPile.length : Int) - 1).toNat
              Card.emptyCard)
            g.base,
         pendingGive :=
          if actorID != targetID then
            some { actorID := actorID, targetPlayerID := targetID, targetIndex := slot }
          else g.pendingGive }, true) := by
  have hl : 1 ≤ g.base.discardPile.length := List.length_pos.mpr hne
  have e1 : (g.base.discardPile == []) = false := by
    simpa using hne
  have e2 : (g.base.stackableCardIndex == -1) = false := by
    rw [hstk]
    simp only [beq_eq_false_iff_ne, ne_eq]
    omega
  have e3 : (g.base.stackableCardIndex != (g.base.discardPile.length : Int) - 1) = false := by
    rw [hstk]
    simp
  have e4 : (decide (slot < 0) || decide ((target.cards.length : Int) ≤ slot)) = false := by
    simp only [Bool.or_eq_false_iff, decide_eq_false_iff_not, not_lt, not_le]
    omega
  have e5 : ((target.cards.getD slot.toNat Card.emptyCard).rank == "") = false := by
    simpa using hcr
  have e6 : ((g.base.discardPile.getD ((g.base.discardPile.length : Int) - 1).toNat
      Card.emptyCard).rank == "") = false := by
    simpa using htr
  have e7 : ((target.cards.getD slot.toNat Card.emptyCard).rank
      != (g.base.discardPile.getD ((g.base.discardPile.length : Int) - 1).toNat
          Card.emptyCard).rank) = false := by
    rw [heq]
    simp
  unfold stackSpec
  rw [e1, e2, e3, hfind]
  simp only [Bool.false_eq_true, if_false]
  rw [e4, e5, e6, e7]
  simp only [Bool.false_eq_true, if_false]

/-- C4: for every successful stack after which some player has zero non-empty
hand slots, round termination fires immediately — the status of the resulting
match is "ended" — regardless of whose turn it is (the operation never
consults `currentPlayer`). Settled against the spec-modelled `stackSpec`. -/
theorem zeroCardWinEndsRound (g : GameG) (actorID targetID : String) (slot : Int)
    (target : Player)
    (hne : g.base.discardPile ≠ [])
    (hstk : g.base.stackableCardIndex = (g.base.discardPile.length : Int) - 1)
    (hfind : findPlayer g.base targetID = some target)
    (h0 : 0 ≤ slot) (hlt : slot < (target.cards.length : Int))
    (hcr : (target.cards.getD slot.toNat Card.emptyCard).rank ≠ "")
    (htr : (g.base.discardPile.getD ((g.base.discardPile.length : Int) - 1).toNat
        Card.emptyCard).rank ≠ "")
    (heq : (target.cards.getD slot.toNat Card.emptyCard).rank
        = (g.base.discardPile.getD ((g.base.discardPile.length : Int) - 1).toNat
            Card.emptyCard).rank)
    (hz : ((stackMid actorID targetID slot target
        (g.base.discardPile.getD ((g.base.discardPile.length : Int) - 1).toNat
          Card.emptyCard) g.base).players.any
            (fun p => countNonEmpty p.cards == 0)) = true) :
    (stackSpec actorID targetID slot g).2 = true ∧
    (stackSpec actorID targetID slot g).1.base.status = "ended" := by
  rw [stackSpec_success g actorID targetID slot target hne hstk hfind h0 hlt hcr htr heq]
  refine ⟨rfl, ?_⟩
  show (stackFinal actorID targetID slot target _ g.base).status = "ended"
  unfold stackFinal
  rw [if_pos hz]
  rfl

/-- C7: for every successful stack the vacated source slot becomes an explicit
absent-card marker at the same position: the hand list keeps its length, the
vacated position holds the empty marker, and every other position keeps its
rank and suit (so in particular the four grid positions remain present).
Settled against the spec-modelled `stackSpec`. -/
theorem sparseHandOnStack (g : GameG) (actorID targetID : String) (slot : Int)
    (target : Player)
    (hne : g.base.discardPile ≠ [])
    (hstk : g.base.stackableCardIndex = (g.base.discardPile.length : Int) - 1)
    (hfind : findPlayer g.base targetID = some target)
    (h0 : 0 ≤ slot) (hlt : slot < (target.cards.length : Int))
    (hcr : (target.cards.getD slot.toNat Card.emptyCard).rank ≠ "")
    (htr : (g.base.discardPile.getD ((g.base.discardPile.length : Int) - 1).toNat
        Card.emptyCard).rank ≠ "")
    (heq : (target.cards.getD slot.toNat Card.emptyCard).rank
        = (g.base.discardPile.getD ((g.base.discardPile.length : Int) - 1).toNat
            Card.emptyCard).rank) :
    (stackSpec actorID targetID slot g).2 = true ∧
    ∃ tp2, findPlayer (stackSpec actorID targetID slot g).1.base targetID = some tp2 ∧
      tp2.cards.length = target.cards.length ∧
      (tp2.cards.getD slot.toNat Card.emptyCard).rank = "" ∧
      (tp2.cards.getD slot.toNat Card.emptyCard).suit = "" ∧
      (∀ j, j ≠ slot.toNat →
        (tp2.cards.getD j Card.emptyCard).rank = (target.cards.getD j Card.emptyCard).rank ∧
        (tp2.cards.getD j Card.emptyCard).suit = (target.cards.getD j Card.emptyCard).suit) := by
  have hslot : slot.toNat < target.cards.length := by omega
  rw [stackSpec_success g actorID targetID slot target hne hstk hfind h0 hlt hcr htr heq]
  refine ⟨rfl, ?_⟩
  show ∃ tp2, findPlayer (stackFinal actorID targetID slot target _ g.base) targetID
      = some tp2 ∧ _
  unfold stackFinal
  set topc := g.base.discardPile.getD ((g.base.discardPile.length : Int) - 1).toNat
    Card.emptyCard with htopc
  by_cases hz : ((stackMid actorID targetID slot target topc g.base).players.any
      (fun p => countNonEmpty p.cards == 0)) = true
  · rw [if_pos hz, findPlayer_endRound,
      findPlayer_stackMid actorID targetID slot target topc g.base hfind]
    refine ⟨_, rfl, ?_, ?_, ?_, ?_⟩
    · rw [revealAndScore_cards_length]
      simp
    · show ((revealAndScore _).cards.getD slot.toNat Card.emptyCard).rank = ""
      unfold revealAndScore
      rw [(getD_map_reveal _ slot.toNat).1]
      show ((target.cards.set slot.toNat Card.emptyCard).getD slot.toNat Card.emptyCard).rank = ""
      rw [getD_set_self _ _ _ _ hslot]
      rfl

    · show ((revealAndScore _).cards.getD slot.toNat Card.emptyCard).suit = ""
      unfold revealAndScore
      rw [(getD_map_reveal _ slot.toNat).2]
      show ((target.cards.set slot.toNat Card.emptyCard).getD slot.toNat Card.emptyCard).suit = ""
      rw [getD_set_self _ _ _ _ hslot]
      rfl
    · intro j hj
      constructor
      · show ((revealAndScore _).cards.getD j Card.emptyCard).rank = _
        unfold revealAndScore
        rw [(getD_map_reveal _ j).1]
        show ((target.cards.set slot.toNat Card.emptyCard).getD j Card.emptyCard).rank = _
        rw [getD_set_ne _ _ _ _ _ (fun h => hj h.symm)]
      · show ((revealAndScore _).cards.getD j Card.emptyCard).suit = _
        unfold revealAndScore
        rw [(getD_map_reveal _ j).2]
        show ((target.cards.set slot.toNat Card.emptyCard).getD j Card.emptyCard).suit = _
        rw [getD_set_ne _ _ _ _ _ (fun h => hj h.symm)]
  · rw [if_neg hz, findPlayer_stackMid actorID targetID slot target topc g.base hfind]
    refine ⟨_, rfl, ?_, ?_, ?_, ?_⟩
    · simp
    · show ((target.cards.set slot.toNat Card.emptyCard).getD slot.toNat Card.emptyCard).rank = ""
      rw [getD_set_self _ _ _ _ hslot]
      rfl
    · show ((target.cards.set slot.toNat Card.emptyCard).getD slot.toNat Card.emptyCard).suit = ""
      rw [getD_set_self _ _ _ _ hslot]
      rfl
    · intro j hj
      constructor
      · show ((target.cards.set slot.toNat Card.emptyCard).getD j Card.emptyCard).rank = _
        rw [getD_set_ne _ _ _ _ _ (fun h => hj h.symm)]
      · show ((target.cards.set slot.toNat Card.emptyCard).getD j Card.emptyCard).suit = _
        rw [getD_set_ne _ _ _ _ _ (fun h => hj h.symm)]

/-- C3: a successful stack on an opponent slot sets `pendingGive` to
`{actorID, targetPlayerID, targetSlot}`; while it is set, every action of the
obligated actor other than `giveCard` leaves the state unchanged; `giveCard`
moves the identified card out of the actor hand (leaving that slot empty)
into the vacated target slot face-down and clears `pendingGive`. Settled
against the spec-modelled stacking and give-back operations. -/
theorem giveBackObligation (g : GameG) (actorID targetID : String) (slot srcSlot : Int)
    (target actor tp : Player) (pg : PendingGive) (a : GAction) :
    (actorID ≠ targetID →
      g.base.discardPile ≠ [] →
      g.base.stackableCardIndex = (g.base.discardPile.length : Int) - 1 →
      findPlayer g.base targetID = some target →
      0 ≤ slot → slot < (target.cards.length : Int) →
      (target.cards.getD slot.toNat Card.emptyCard).rank ≠ "" →
      (g.base.discardPile.getD ((g.base.discardPile.length : Int) - 1).toNat
          Card.emptyCard).rank ≠ "" →
      (target.cards.getD slot.toNat Card.emptyCard).rank
          = (g.base.discardPile.getD ((g.base.discardPile.length : Int) - 1).toNat
              Card.emptyCard).rank →
      (stackSpec actorID targetID slot g).2 = true ∧
      (stackSpec actorID targetID slot g).1.pendingGive
        = some { actorID := actorID, targetPlayerID := targetID, targetIndex := slot })
    ∧ (g.pendingGive = some pg → pg.actorID = actorID →
        (∀ s2, a ≠ GAction.give s2) → gstep actorID a g = g)
    ∧ (g.pendingGive = some pg → pg.actorID = actorID →
        findPlayer g.base actorID = some actor →
        0 ≤ srcSlot → srcSlot < (actor.cards.length : Int) →
        findPlayer g.base pg.targetPlayerID = some tp →
        actorID ≠ pg.targetPlayerID →
        (gstep actorID (GAction.give srcSlot) g).pendingGive = none ∧
        findPlayer (gstep actorID (GAction.give srcSlot) g).base actorID
          = some { actor with cards := actor.cards.set srcSlot.toNat Card.emptyCard } ∧
        findPlayer (gstep actorID (GAction.give srcSlot) g).base pg.targetPlayerID
          = some { tp with cards := tp.cards.set pg.targetIndex.toNat ({ actor.cards.getD srcSlot.toNat Card.emptyCard with faceUp := false }) }) := by
  refine ⟨?_, ?_, ?_⟩
  · intro hneq hne hstk hfind h0 hlt hcr htr heq
    rw [stackSpec_success g actorID targetID slot target hne hstk hfind h0 hlt hcr htr heq]
    refine ⟨rfl, ?_⟩
    show (if (actorID != targetID) = true then _ else _) = _
    rw [if_pos (by simpa [bne_iff_ne] using hneq)]
  · intro h1 h2 h3
    have hb : (pg.actorID == actorID) = true := by simp [h2]
    unfold gstep
    rw [h1]
    dsimp only
    rw [hb]
    cases a with
    | give s2 => exact absurd rfl (h3 s2)
    | draw => rfl
    | discardDrawn => rfl
    | swapDrawn s2 => rfl
    | useSpecial r ps => rfl
    | skipSpecial => rfl
    | turnEnd o => rfl
    | stack t2 s2 => rfl
  · intro h1 h2 hfa h0 hlt hftp hneq
    have hidA : actor.id = actorID := findPlayer_id hfa
    have hidT : tp.id = pg.targetPlayerID := findPlayer_id hftp
    have hb : (pg.actorID == actorID) = true := by simp [h2]
    have hna : (pg.actorID != actorID) = false := by simp [h2]
    have hbound : (decide (srcSlot < 0) || decide ((actor.cards.length : Int) ≤ srcSlot))
        = false := by
      simp only [Bool.or_eq_false_iff, decide_eq_false_iff_not, not_lt, not_le]
      exact ⟨h0, hlt⟩
    have hstep : gstep actorID (GAction.give srcSlot) g
        = handleGiveCard actorID srcSlot g := by
      unfold gstep
      rw [h1]
      dsimp only
      rw [hb]
      exact if_pos rfl
    have hgv : handleGiveCard actorID srcSlot g =
        { base :=
            updatePlayer
              (updatePlayer g.base actorID
                (fun p => { p with cards := p.cards.set srcSlot.toNat Card.emptyCard }))
              pg.targetPlayerID
              (fun p => { p with cards := p.cards.set pg.targetIndex.toNat ({ actor.cards.getD srcSlot.toNat Card.emptyCard with faceUp := false }) }),
          pendingGive := none } := by
      unfold handleGiveCard
      rw [h1]
      dsimp only
      rw [hna]
      simp only [Bool.false_eq_true, if_false]
      rw [hfa]
      dsimp only
      rw [hbound]
      simp only [Bool.false_eq_true, if_false]
    rw [hstep, hgv]
    refine ⟨rfl, ?_, ?_⟩
    · show findPlayer (updatePlayer _ pg.targetPlayerID _) actorID = _
      rw [findPlayer_updatePlayer _ pg.targetPlayerID actorID
            (fun p => { p with cards := p.cards.set pg.targetIndex.toNat ({ actor.cards.getD srcSlot.toNat Card.emptyCard with faceUp := false }) })
            (fun _ => rfl),
          findPlayer_updatePlayer _ actorID actorID
            (fun p => { p with cards := p.cards.set srcSlot.toNat Card.emptyCard })
            (fun _ => rfl),
          hfa]
      have h1T : ¬ actor.id = pg.targetPlayerID := by rw [hidA]; exact hneq
      simp only [hidA, h1T]
      simp [hidA, h1T]
      exact fun h => absurd h hneq
    · show findPlayer (updatePlayer _ pg.targetPlayerID _) pg.targetPlayerID = _
      rw [findPlayer_updatePlayer _ pg.targetPlayerID pg.targetPlayerID
            (fun p => { p with cards := p.cards.set pg.targetIndex.toNat ({ actor.cards.getD srcSlot.toNat Card.emptyCard with faceUp := false }) })
            (fun _ => rfl),
          findPlayer_updatePlayer _ actorID pg.targetPlayerID
            (fun p => { p with cards := p.cards.set srcSlot.toNat Card.emptyCard })
            (fun _ => rfl),
          hftp]
      have h2A : ¬ tp.id = actorID := by rw [hidT]; exact fun h => hneq h.symm
      have h3A : ¬ pg.targetPlayerID = actorID := fun h => hneq h.symm
      simp [hidT, h2A, h3A]

theorem specialQueueAdvance_nil (rank : String) (g : Game)
    (hq : g.stackedSpecialCardPlayers = []) : specialQueueAdvance rank g = g := by
  unfold specialQueueAdvance
  split
  · rfl
  · rename_i h2 t2 heq
    rw [hq] at heq
    exact absurd heq.symm (List.cons_ne_nil h2 t2)

theorem specialQueueAdvance_cons (rank : String) (g : Game) (h : String) (t : List String)
    (hq : g.stackedSpecialCardPlayers = h :: t)
    (hfs : (findPlayer { g with stackedSpecialCardPlayers := t } h).isSome) :
    specialQueueAdvance rank g
      = { g with
          stackedSpecialCardPlayers := t
          currentPlayer := h
          pendingSpecialCard := rank } := by
  unfold specialQueueAdvance
  split
  · rename_i heq
    rw [hq] at heq
    exact absurd heq (List.cons_ne_nil h t)
  · rename_i h2 t2 heq
    rw [hq] at heq
    injection heq with e1 e2
    subst e1
    subst e2
    rw [if_pos hfs]

theorem skipSpecialCard_nil (pid : String) (g : Game)
    (hcur : g.currentPlayer = pid) (hq : g.stackedSpecialCardPlayers = []) :
    skipSpecialCard pid g = { g with pendingSpecialCard := "" } := by
  have hne1 : (g.currentPlayer != pid) = false := by simp [hcur]
  unfold skipSpecialCard
  rw [hne1]
  simp only [Bool.false_eq_true, if_false]
  split
  · rfl
  · rename_i h2 t2 heq
    rw [show ({ g with pendingSpecialCard := "" } : Game).stackedSpecialCardPlayers
        = g.stackedSpecialCardPlayers from rfl, hq] at heq
    exact absurd heq.symm (List.cons_ne_nil h2 t2)

theorem skipSpecialCard_cons (pid : String) (g : Game) (h : String) (t : List String)
    (top : Card)
    (hcur : g.currentPlayer = pid) (hq : g.stackedSpecialCardPlayers = h :: t)
    (hfs : (findPlayer
      { g with pendingSpecialCard := "", stackedSpecialCardPlayers := t } h).isSome)
    (htop : g.discardPile.getLast? = some top)
    (h789 : (top.rank == "7" || top.rank == "8" || top.rank == "9") = true) :
    skipSpecialCard pid g
      = { g with
          pendingSpecialCard := top.rank
          stackedSpecialCardPlayers := t
          currentPlayer := h } := by
  have hne1 : (g.currentPlayer != pid) = false := by simp [hcur]
  unfold skipSpecialCard
  rw [hne1]
  simp only [Bool.false_eq_true, if_false]
  split
  · rename_i heq
    rw [show ({ g with pendingSpecialCard := "" } : Game).stackedSpecialCardPlayers
        = g.stackedSpecialCardPlayers from rfl, hq] at heq
    exact absurd heq (List.cons_ne_nil h t)
  · rename_i h2 t2 heq
    rw [show ({ g with pendingSpecialCard := "" } : Game).stackedSpecialCardPlayers
        = g.stackedSpecialCardPlayers from rfl, hq] at heq
    injection heq with e1 e2
    subst e1
    subst e2
    rw [if_pos hfs]
    rw [show ({ g with pendingSpecialCard := "" } : Game).discardPile
        = g.discardPile from rfl, htop]
    split
    · rename_i heq2
      exact Option.noConfusion heq2
    · rename_i tc heq2
      injection heq2 with e3
      subst e3
      rw [h789]
      simp only [if_true]

/-- C8: after a special-card resolution (`UseSpecialCardFromDiscard`) or an
explicit skip (`SkipSpecialCard`), `pendingSpecialCard` is cleared; then, if
the queue of players who stacked on the special card is non-empty, its head
(assumed seated) is dequeued, becomes `currentPlayer`, and
`pendingSpecialCard` is re-armed with the same rank; with an empty queue the
flag stays cleared and the turn owner is unchanged. -/
theorem deferredSpecialRightsQueue (g : Game) (pid rank : String) (ps : SpecialParams)
    (top : Card)
    (hcur : g.currentPlayer = pid)
    (htop : g.discardPile.getLast? = some top)
    (hrk : top.rank = rank)
    (hpend : g.pendingSpecialCard = rank)
    (h789 : rank = "7" ∨ rank = "8" ∨ rank = "9") :
    (g.stackedSpecialCardPlayers = [] →
      (useSpecialCardFromDiscard pid rank ps g).1.pendingSpecialCard = "" ∧
      (useSpecialCardFromDiscard pid rank ps g).1.currentPlayer = pid ∧
      (useSpecialCardFromDiscard pid rank ps g).1.stackedSpecialCardPlayers = [] ∧
      (skipSpecialCard pid g).pendingSpecialCard = "" ∧
      (skipSpecialCard pid g).currentPlayer = pid ∧
      (skipSpecialCard pid g).stackedSpecialCardPlayers = [])
    ∧ (∀ h t, g.stackedSpecialCardPlayers = h :: t → h ∈ playerIDs g →
      (useSpecialCardFromDiscard pid rank ps g).1.pendingSpecialCard = rank ∧
      (useSpecialCardFromDiscard pid rank ps g).1.currentPlayer = h ∧
      (useSpecialCardFromDiscard pid rank ps g).1.stackedSpecialCardPlayers = t ∧
      (skipSpecialCard pid g).pendingSpecialCard = rank ∧
      (skipSpecialCard pid g).currentPlayer = h ∧
      (skipSpecialCard pid g).stackedSpecialCardPlayers = t) := by
  have hne1 : (g.currentPlayer != pid) = false := by simp [hcur]
  have hne2 : (top.rank != rank) = false := by simp [hrk]
  have hne3 : (g.pendingSpecialCard != rank) = false := by simp [hpend]
  have core := specialEffect_core pid rank ps g
  have huse : useSpecialCardFromDiscard pid rank ps g
      = (specialQueueAdvance rank
          { (specialEffect pid rank ps g).1 with pendingSpecialCard := "" }, true,
         (specialEffect pid rank ps g).2) := by
    unfold useSpecialCardFromDiscard
    rw [hne1]
    simp only [Bool.false_eq_true, if_false]
    rw [htop]
    dsimp only
    rw [hne2, hne3]
    simp only [Bool.false_eq_true, if_false]
  constructor
  · intro hq
    have hadv := specialQueueAdvance_nil rank
      { (specialEffect pid rank ps g).1 with pendingSpecialCard := "" }
      (core.2.2.1.trans hq)
    have hskip := skipSpecialCard_nil pid g hcur hq
    rw [huse, hadv, hskip]
    exact ⟨rfl, core.2.1.trans hcur, core.2.2.1.trans hq, rfl, hcur, hq⟩
  · intro h t hq hmem
    have hfs : (findPlayer
        { (specialEffect pid rank ps g).1 with
            pendingSpecialCard := "", stackedSpecialCardPlayers := t } h).isSome := by
      rw [findPlayer_isSome_iff]
      show h ∈ playerIDs (specialEffect pid rank ps g).1
      rw [core.2.2.2]
      exact hmem
    have hadv := specialQueueAdvance_cons rank
      { (specialEffect pid rank ps g).1 with pendingSpecialCard := "" } h t
      (core.2.2.1.trans hq) hfs
    have hfs2 : (findPlayer
        { g with pendingSpecialCard := "", stackedSpecialCardPlayers := t } h).isSome := by
      rw [findPlayer_isSome_iff]
      exact hmem
    have hrk789 : (top.rank == "7" || top.rank == "8" || top.rank == "9") = true := by
      rw [hrk]
      rcases h789 with h9 | h9 | h9 <;> simp [h9]
    have hskip := skipSpecialCard_cons pid g h t top hcur hq hfs2 htop hrk789
    rw [huse, hadv, hskip]
    exact ⟨rfl, rfl, rfl, hrk, rfl, rfl⟩

/-- C9: the per-viewer projection of a hand slot built by
`getGameStateForPlayer` never leaks a hidden card of another player — a
face-down card of a non-viewer in a non-ended match is replaced by the empty
marker — while the viewer's own cards are included verbatim during play and
every present card is fully revealed once the match has ended. -/
theorem informationHidingProjection (viewerID pid status : String) (c : Card) :
    (pid ≠ viewerID → status ≠ "ended" → c.faceUp = false →
      projectCard viewerID pid status c
        = if c.rank ≠ "" ∨ c.suit ≠ "" then
            some { suit := "", rank := "", faceUp := false } else none)
    ∧ (pid = viewerID → status ≠ "ended" →
      projectCard viewerID pid status c
        = if c.rank ≠ "" ∨ c.suit ≠ "" then some c else none)
    ∧ (status = "ended" → (c.rank ≠ "" ∨ c.suit ≠ "") →
      projectCard viewerID pid status c = some { c with faceUp := true }) := by
  obtain ⟨s, r, f⟩ := c
  refine ⟨?_, ?_, ?_⟩
  · intro hpv hse hfu
    have h1 : (pid == viewerID) = false := by simpa using hpv
    have h2 : (status == "ended") = false := by simpa using hse
    simp only at hfu
    subst hfu
    simp [projectCard, h1, h2]
  · intro hpv hse
    have h2 : (status == "ended") = false := by simpa using hse
    subst hpv
    simp [projectCard, h2]
  · intro hse hpres
    subst hse
    have hb : (r != "" || s != "") = true := by
      rcases hpres with hp | hp <;> simp_all
    simp [projectCard, hb]

/-- Characterises a `targetIndex` parameter that triggers no reveal: the key
is missing (or its type assertion failed), or the decoded index is outside
the checked range `0 ≤ idx < 4`. -/
def badTargetIndex : Option Int → Prop
  | none => True
  | some ti => ti < 0 ∨ 4 ≤ ti

theorem specialEffect_seven_eight_state (pid rank : String) (ps : SpecialParams) (g : Game)
    (h78 : rank = "7" ∨ rank = "8") : (specialEffect pid rank ps g).1 = g := by
  rcases h78 with h | h <;> subst h <;> unfold specialEffect <;> repeat' split
  all_goals first
    | rfl
    | simp_all

theorem specialEffect_bad_params (pid rank : String) (ps : SpecialParams) (g : Game)
    (hbad : (rank = "7" ∧ badTargetIndex ps.targetIndex)
      ∨ (rank = "8" ∧ (ps.targetPlayerID = none ∨ badTargetIndex ps.targetIndex))) :
    specialEffect pid rank ps g = (g, []) := by
  rcases hbad with ⟨h7, hb⟩ | ⟨h8, hb⟩
  · subst h7
    have h7t : ("7" == "7") = true := rfl
    unfold specialEffect
    rw [if_pos h7t]
    cases hti : ps.targetIndex with
    | none => rfl
    | some ti =>
      rw [hti] at hb
      have hc : (decide (0 ≤ ti) && decide (ti < 4)) = false := by
        simp only [Bool.and_eq_false_iff, decide_eq_false_iff_not, not_le, not_lt]
        rcases hb with hb | hb
        · exact Or.inl hb
        · exact Or.inr hb
      dsimp only
      rw [hc]
      simp only [Bool.false_eq_true, if_false]
  · subst h8
    have h87 : ¬ ("8" == "7") = true := by decide
    have h88 : ("8" == "8") = true := rfl
    unfold specialEffect
    rw [if_neg h87, if_pos h88]
    rcases hb with hb | hb
    · rw [hb]
    · cases htp : ps.targetPlayerID with
      | none => rfl
      | some tpid =>
        cases hti : ps.targetIndex with
        | none => rfl
        | some ti =>
          rw [hti] at hb
          have hc : (decide (0 ≤ ti) && decide (ti < 4)) = false := by
            simp only [Bool.and_eq_false_iff, decide_eq_false_iff_not, not_le, not_lt]
            rcases hb with hb | hb
            · exact Or.inl hb
            · exact Or.inr hb
          dsimp only
          cases hfp : findPlayer g tpid with
          | none => rfl
          | some tp =>
            rw [hc]
            simp only [Bool.false_eq_true, if_false]

/-- C10: when the current player holds the matching pending special card of
rank 7 or 8 and the supplied target parameters are missing, of the wrong
type, or out of range, `UseSpecialCardFromDiscard` sends no reveal, still
returns `true`, clears `pendingSpecialCard`, and advances the deferred-rights
queue exactly as a use with any other parameters would. -/
theorem silentSuccessOnMalformedSpecialParams (g : Game) (pid rank : String)
    (ps ps2 : SpecialParams) (top : Card)
    (hcur : g.currentPlayer = pid)
    (htop : g.discardPile.getLast? = some top)
    (hrk : top.rank = rank)
    (hpend : g.pendingSpecialCard = rank)
    (hbad : (rank = "7" ∧ badTargetIndex ps.targetIndex)
      ∨ (rank = "8" ∧ (ps.targetPlayerID = none ∨ badTargetIndex ps.targetIndex))) :
    useSpecialCardFromDiscard pid rank ps g
      = (specialQueueAdvance rank { g with pendingSpecialCard := "" }, true, [])
    ∧ (useSpecialCardFromDiscard pid rank ps2 g).1
      = (useSpecialCardFromDiscard pid rank ps g).1 := by
  have h78 : rank = "7" ∨ rank = "8" := by
    rcases hbad with ⟨h, _⟩ | ⟨h, _⟩
    · exact Or.inl h
    · exact Or.inr h
  have hne1 : (g.currentPlayer != pid) = false := by simp [hcur]
  have hne2 : (top.rank != rank) = false := by simp [hrk]
  have hne3 : (g.pendingSpecialCard != rank) = false := by simp [hpend]
  have huse : ∀ ps3 : SpecialParams, useSpecialCardFromDiscard pid rank ps3 g
      = (specialQueueAdvance rank
          { (specialEffect pid rank ps3 g).1 with pendingSpecialCard := "" }, true,
         (specialEffect pid rank ps3 g).2) := by
    intro ps3
    unfold useSpecialCardFromDiscard
    rw [hne1]
    simp only [Bool.false_eq_true, if_false]
    rw [htop]
    dsimp only
    rw [hne2, hne3]
    simp only [Bool.false_eq_true, if_false]
  have heff := specialEffect_bad_params pid rank ps g hbad
  constructor
  · rw [huse ps, heff]
  · rw [huse ps, huse ps2, heff,
      specialEffect_seven_eight_state pid rank ps2 g h78]

/-- C5 (amended): a stack attempt rejected for rank mismatch, when the deck
is non-empty, appends the top deck card face-down to the acting player's
hand (raising the non-empty-slot count by exactly one) and leaves the
discard pile and the stackable pointer unchanged; when the deck is empty,
the rejected attempt changes nothing at all and no penalty card is added. -/
theorem failedStackPenalty (g : Game) (pid : String) (i : Int) (player : Player)
    (hne : g.discardPile ≠ [])
    (hstk : g.stackableCardIndex = (g.discardPile.length : Int) - 1)
    (hfind : findPlayer g pid = some player)
    (h0 : 0 ≤ i) (hlt : i < (player.cards.length : Int))
    (hcr : (player.cards.getD i.toNat Card.emptyCard).rank ≠ "")
    (htr : (g.discardPile.getD ((g.discardPile.length : Int) - 1).toNat
        Card.emptyCard).rank ≠ "")
    (hmm2 : (player.cards.getD i.toNat Card.emptyCard).rank
        ≠ (g.discardPile.getD ((g.discardPile.length : Int) - 1).toNat
            Card.emptyCard).rank) :
    (∀ c rest, g.deck = c :: rest → Card.present c = true →
      (stackCard pid i g).2 = false
      ∧ (stackCard pid i g).1.discardPile = g.discardPile
      ∧ (stackCard pid i g).1.stackableCardIndex = g.stackableCardIndex
      ∧ (stackCard pid i g).1.deck = rest
      ∧ findPlayer (stackCard pid i g).1 pid
          = some { player with cards := player.cards ++ [{ c with faceUp := false }] }
      ∧ countNonEmpty (player.cards ++ [{ c with faceUp := false }])
          = countNonEmpty player.cards + 1)
    ∧ (g.deck = [] → stackCard pid i g = (g, false)) := by
  have hl : 1 ≤ g.discardPile.length := List.length_pos.mpr hne
  have e1 : (g.discardPile == []) = false := by simpa using hne
  have e2 : (g.stackableCardIndex == -1) = false := by
    rw [hstk]
    simp only [beq_eq_false_iff_ne, ne_eq]
    omega
  have e3 : (g.stackableCardIndex != (g.discardPile.length : Int) - 1) = false := by
    rw [hstk]
    simp
  have e4 : (decide (i < 0) || decide ((player.cards.length : Int) ≤ i)) = false := by
    simp only [Bool.or_eq_false_iff, decide_eq_false_iff_not, not_lt, not_le]
    omega
  have e5 : ((player.cards.getD i.toNat Card.emptyCard).rank == "") = false := by
    simpa using hcr
  have e6 : ((g.discardPile.getD ((g.discardPile.length : Int) - 1).toNat
      Card.emptyCard).rank == "") = false := by
    simpa using htr
  have e7 : ((player.cards.getD i.toNat Card.emptyCard).rank
      != (g.discardPile.getD ((g.discardPile.length : Int) - 1).toNat
          Card.emptyCard).rank) = true := by
    simpa using hmm2
  have hstack : stackCard pid i g =
      (match g.deck with
       | [] => (g, false)
       | c :: rest =>
         (updatePlayer { g with deck := rest } pid
           (fun p => { p with cards := p.cards ++ [{ c with faceUp := false }] }), false)) := by
    simp only [stackCard, e1, e2, e3, e4, e5, e6, e7, hfind, Bool.false_eq_true,
      if_false, if_true]
  constructor
  · intro c rest hdeck hpres
    rw [hstack, hdeck]
    dsimp only
    refine ⟨rfl, rfl, rfl, rfl, ?_, countNonEmpty_append_present player.cards _ hpres⟩
    rw [findPlayer_updatePlayer _ pid pid
          (fun p => { p with cards := p.cards ++ [{ c with faceUp := false }] })
          (fun _ => rfl)]
    rw [show findPlayer { g with deck := rest } pid = findPlayer g pid from rfl, hfind]
    have hid : player.id = pid := findPlayer_id hfind
    simp [hid]
  · intro hdeck
    rw [hstack, hdeck]

/-! ### Concrete states used by the counterexample and code-bug theorems -/

/-- Swaps two positions of a card list, producing a permutation of it. -/
def swapAt (l : List Card) (i j : Nat) : List Card :=
  (l.set i (l.getD j Card.emptyCard)).set j (l.getD i Card.emptyCard)

/-- Represents one possible shuffle outcome: `createDeck` with positions 8/19
and 6/12 exchanged, so that the third seat is dealt a 7 and the first drawn
card is a 7. -/
def cardLossDeck : List Card := swapAt (swapAt createDeck 8 19) 6 12

def cardLossLobby : Game :=
  mkLobby "g" cardLossDeck [("p1", "A"), ("p2", "B"), ("p3", "C")]

def cardLossS0 : Game := startGame ["p1", "p2", "p3"] "p1" cardLossLobby
def cardLossS1 : Game := (drawCard "p1" cardLossS0).1
def cardLossS2 : Game := (discardDrawnCard "p1" cardLossS1).1
def cardLossS3 : Game := skipSpecialCard "p1" cardLossS2
def cardLossS4 : Game := endTurn ["p1", "p2", "p3"] "p1" cardLossS3
def cardLossS5 : Game := (drawCard "p2" cardLossS4).1
def cardLossS6 : Game := (stackCard "p3" 0 cardLossS5).1
def cardLossS7 : Game := skipSpecialCard "p2" cardLossS6
def cardLossS8 : Game := (drawCard "p3" cardLossS7).1
def cardLossS9 : Game := (discardDrawnCard "p3" cardLossS8).1
def cardLossS10 : Game := endTurn ["p1", "p2", "p3"] "p3" cardLossS9
def cardLossS11 : Game := (drawCard "p1" cardLossS10).1
def cardLossS12 : Game := (discardDrawnCard "p1" cardLossS11).1
def cardLossS13 : Game := endTurn ["p1", "p2", "p3"] "p1" cardLossS12
def cardLossS14 : Game := (drawCard "p2" cardLossS13).1

set_option maxRecDepth 8000 in
theorem cardLossReachable : Reachable cardLossS14 := by
  have h0 : Reachable cardLossS0 :=
    Reachable.start cardLossLobby ["p1", "p2", "p3"] "p1"
      ⟨"g", cardLossDeck, [("p1", "A"), ("p2", "B"), ("p3", "C")],
        rfl, by decide, by decide, by decide, by decide⟩
      (by decide) (by decide)
  have h1 : Reachable cardLossS1 := Reachable.draw cardLossS0 "p1" h0
  have h2 : Reachable cardLossS2 := Reachable.discard cardLossS1 "p1" h1
  have h3 : Reachable cardLossS3 := Reachable.skip cardLossS2 "p1" h2
  have h4 : Reachable cardLossS4 :=
    Reachable.turn cardLossS3 ["p1", "p2", "p3"] "p1" h3 (by decide)
  have h5 : Reachable cardLossS5 := Reachable.draw cardLossS4 "p2" h4
  have h6 : Reachable cardLossS6 := Reachable.stack cardLossS5 "p3" 0 h5
  have h7 : Reachable cardLossS7 := Reachable.skip cardLossS6 "p2" h6
  have h8 : Reachable cardLossS8 := Reachable.draw cardLossS7 "p3" h7
  have h9 : Reachable cardLossS9 := Reachable.discard cardLossS8 "p3" h8
  have h10 : Reachable cardLossS10 :=
    Reachable.turn cardLossS9 ["p1", "p2", "p3"] "p3" h9 (by decide)
  have h11 : Reachable cardLossS11 := Reachable.draw cardLossS10 "p1" h10
  have h12 : Reachable cardLossS12 := Reachable.discard cardLossS11 "p1" h11
  have h13 : Reachable cardLossS13 :=
    Reachable.turn cardLossS12 ["p1", "p2", "p3"] "p1" h12 (by decide)
  exact Reachable.draw cardLossS13 "p2" h13

set_option maxRecDepth 8000 in
/-- C1: card conservation fails on the code. Along a reachable trace in which
a stacked special card lets the current player hand the turn to the stacking
player through a skip while still holding an unresolved drawn card, a later
redraw by that player overwrites the stored drawn card, losing a card: the
claimed sum is then 51 instead of 52. -/
theorem conservationFailsOnReachableState :
    Reachable cardLossS14 ∧ conservationSum cardLossS14 = 51 :=
  ⟨cardLossReachable, by decide⟩

def pabloLobby : Game := mkLobby "g" createDeck [("p1", "A"), ("p2", "B")]

def pabloS0 : Game := startGame ["p1", "p2"] "p1" pabloLobby
def pabloS1 : Game := callPablo "p1" pabloS0
def pabloS2 : Game := (drawCard "p1" pabloS1).1
def pabloS3 : Game := (discardDrawnCard "p1" pabloS2).1
def pabloS4 : Game := skipSpecialCard "p1" pabloS3
def pabloS5 : Game := endTurn ["p1", "p2"] "p1" pabloS4
def pabloS6 : Game := (drawCard "p2" pabloS5).1
def pabloS7 : Game := (discardDrawnCard "p2" pabloS6).1

/-- Represents a match ended by the Pablo cascade: the caller and the other
player each complete one turn, after which the final `EndTurn` fires
`EndRound`. -/
def pabloEndState : Game := endTurn ["p1", "p2"] "p2" pabloS7

set_option maxRecDepth 8000 in
/-- C2: the ended state is not terminal in the code. After a Pablo cascade
ends the round, the player who ended the last turn is still the current
player and `DrawCard` has no status guard: invoked on the ended match it
returns `true`, removes a card from the deck and stores a drawn card, so the
match state is mutated after `status = "ended"`. -/
theorem mutationAfterEndedState :
    pabloEndState.status = "ended"
    ∧ (drawCard "p2" pabloEndState).2 = true
    ∧ (drawCard "p2" pabloEndState).1.status = "ended"
    ∧ pabloEndState.deck.length = 42
    ∧ (drawCard "p2" pabloEndState).1.deck.length = 41
    ∧ (lookupDrawn (drawCard "p2" pabloEndState).1.drawnCards "p2").isSome = true := by
  decide

/-- Represents a freshly started three-seat match, used to exercise the turn
rotation of `EndTurn` under two different map iteration orders. -/
def rotationGame : Game :=
  startGame ["p1", "p2", "p3"] "p1"
    (mkLobby "g" createDeck [("p1", "A"), ("p2", "B"), ("p3", "C")])

set_option maxRecDepth 8000 in
/-- C6: turn rotation is not a function of the insertion-ordered seating.
`EndTurn` enumerates the Go player map, whose iteration order is
unspecified: both orders below enumerate exactly the seated players, yet one
hands the turn to `p2` and the other to `p3`. -/
theorem rotationDependsOnMapOrder :
    (["p1", "p2", "p3"] : List String).Perm (playerIDs rotationGame)
    ∧ (["p1", "p3", "p2"] : List String).Perm (playerIDs rotationGame)
    ∧ (endTurn ["p1", "p2", "p3"] "p1" rotationGame).currentPlayer = "p2"
    ∧ (endTurn ["p1", "p3", "p2"] "p1" rotationGame).currentPlayer = "p3" := by
  decide

/-- Represents a state in which a rank-mismatch stack attempt is made while
the deck is empty: the discard top is stackable, slot 0 of the acting player
is valid and non-empty, and the ranks differ. -/
def mismatchEmptyDeckGame : Game :=
  { id := "g"
    players :=
      [{ id := "p1", name := "A",
         cards := [{ suit := "clubs", rank := "2", faceUp := false },
                   { suit := "clubs", rank := "3", faceUp := false },
                   { suit := "clubs", rank := "4", faceUp := false },
                   { suit := "clubs", rank := "5", faceUp := false }],
         ready := false, score := 0 },
       { id := "p2", name := "B",
         cards := [{ suit := "spades", rank := "2", faceUp := false },
                   { suit := "spades", rank := "3", faceUp := false },
                   { suit := "spades", rank := "4", faceUp := false },
                   { suit := "spades", rank := "5", faceUp := false }],
         ready := false, score := 0 }]
    deck := []
    discardPile := [{ suit := "hearts", rank := "A", faceUp := true }]
    drawnCards := []
    hasDrawnThisTurn := []
    pendingSpecialCard := ""
    currentPlayer := "p1"
    status := "playing"
    pabloCalled := false
    pabloCaller := ""
    stackableCardIndex := 0
    stackedSpecialCardPlayers := [] }

/-- C5 counterexample: a rank-mismatch stack attempt against an empty deck is
rejected, yet the acting player's non-empty-slot count stays at 4 instead of
rising to 5 — no penalty card exists to hand out — refuting the claim that
every rejected mismatch raises the count by exactly one. -/
theorem failedStackPenaltyCounterexample :
    mismatchEmptyDeckGame.discardPile
        = [{ suit := "hearts", rank := "A", faceUp := true }]
    ∧ mismatchEmptyDeckGame.stackableCardIndex
        = (mismatchEmptyDeckGame.discardPile.length : Int) - 1
    ∧ ((findPlayer mismatchEmptyDeckGame "p1").map
        (fun p => (p.cards.getD 0 Card.emptyCard).rank)) = some "2"
    ∧ mismatchEmptyDeckGame.deck = []
    ∧ stackCard "p1" 0 mismatchEmptyDeckGame = (mismatchEmptyDeckGame, false)
    ∧ ((findPlayer mismatchEmptyDeckGame "p1").map
        (fun p => countNonEmpty p.cards)) = some 4
    ∧ ((findPlayer (stackCard "p1" 0 mismatchEmptyDeckGame).1 "p1").map
        (fun p => countNonEmpty p.cards)) = some 4 := by
  decide

/-! ### Witness states and witness theorems -/

def wGiveP1 : Player :=
  { id := "p1", name := "A",
    cards := [{ suit := "clubs", rank := "3", faceUp := false },
              { suit := "clubs", rank := "4", faceUp := false },
              { suit := "clubs", rank := "5", faceUp := false },
              { suit := "clubs", rank := "6", faceUp := false }],
    ready := false, score := 0 }

def wGiveP2 : Player :=
  { id := "p2", name := "B",
    cards := [Card.emptyCard,
              { suit := "clubs", rank := "7", faceUp := false },
              { suit := "clubs", rank := "8", faceUp := false },
              { suit := "clubs", rank := "9", faceUp := false }],
    ready := false, score := 0 }

def wGive : GameG :=
  { base :=
      { id := "g"
        players := [wGiveP1, wGiveP2]
        deck := [{ suit := "diamonds", rank := "2", faceUp := false }]
        discardPile := [{ suit := "hearts", rank := "7", faceUp := true }]
        drawnCards := []
        hasDrawnThisTurn := []
        pendingSpecialCard := ""
        currentPlayer := "p1"
        status := "playing"
        pabloCalled := false
        pabloCaller := ""
        stackableCardIndex := 0
        stackedSpecialCardPlayers := [] }
    pendingGive := some { actorID := "p1", targetPlayerID := "p2", targetIndex := 0 } }

theorem giveBackObligationWitness :
    ((stackSpec "p1" "p2" 1 wGive).2 = true
      ∧ (stackSpec "p1" "p2" 1 wGive).1.pendingGive
          = some { actorID := "p1", targetPlayerID := "p2", targetIndex := 1 })
    ∧ gstep "p1" GAction.draw wGive = wGive
    ∧ ((gstep "p1" (GAction.give 2) wGive).pendingGive = none
      ∧ findPlayer (gstep "p1" (GAction.give 2) wGive).base "p1"
          = some { wGiveP1 with cards := wGiveP1.cards.set (2 : Int).toNat Card.emptyCard }
      ∧ findPlayer (gstep "p1" (GAction.give 2) wGive).base "p2"
          = some { wGiveP2 with cards := wGiveP2.cards.set (0 : Int).toNat ({ wGiveP1.cards.getD (2 : Int).toNat Card.emptyCard with faceUp := false }) }) := by
  refine ⟨?_, ?_, ?_⟩
  · exact (giveBackObligation wGive "p1" "p2" 1 2 wGiveP2 wGiveP1 wGiveP2
      { actorID := "p1", targetPlayerID := "p2", targetIndex := 0 } GAction.draw).1
      (by decide) (by decide) (by decide) (by decide) (by decide) (by decide)
      (by decide) (by decide) (by decide)
  · exact (giveBackObligation wGive "p1" "p2" 1 2 wGiveP2 wGiveP1 wGiveP2
      { actorID := "p1", targetPlayerID := "p2", targetIndex := 0 } GAction.draw).2.1
      rfl rfl (fun s2 h => GAction.noConfusion h)
  · exact (giveBackObligation wGive "p1" "p2" 1 2 wGiveP2 wGiveP1 wGiveP2
      { actorID := "p1", targetPlayerID := "p2", targetIndex := 0 } GAction.draw).2.2
      rfl rfl (by decide) (by decide) (by decide) (by decide) (by decide)

def wZeroP2 : Player :=
  { id := "p2", name := "B",
    cards := [{ suit := "clubs", rank := "7", faceUp := false },
              Card.emptyCard, Card.emptyCard, Card.emptyCard],
    ready := false, score := 0 }

def wZero : GameG :=
  { base :=
      { id := "g"
        players :=
          [{ id := "p1", name := "A",
             cards := [{ suit := "spades", rank := "2", faceUp := false },
                       { suit := "spades", rank := "3", faceUp := false },
                       { suit := "spades", rank := "4", faceUp := false },
                       { suit := "spades", rank := "5", faceUp := false }],
             ready := false, score := 0 }, wZeroP2]
        deck := []
        discardPile := [{ suit := "hearts", rank := "7", faceUp := true }]
        drawnCards := []
        hasDrawnThisTurn := []
        pendingSpecialCard := ""
        currentPlayer := "p1"
        status := "playing"
        pabloCalled := false
        pabloCaller := ""
        stackableCardIndex := 0
        stackedSpecialCardPlayers := [] }
    pendingGive := none }

theorem zeroCardWinEndsRoundWitness :
    (stackSpec "p2" "p2" 0 wZero).2 = true
    ∧ (stackSpec "p2" "p2" 0 wZero).1.base.status = "ended" :=
  zeroCardWinEndsRound wZero "p2" "p2" 0 wZeroP2
    (by decide) (by decide) (by decide) (by decide) (by decide) (by decide)
    (by decide) (by decide) (by decide)

def wSparseP2 : Player :=
  { id := "p2", name := "B",
    cards := [{ suit := "spades", rank := "2", faceUp := false },
              { suit := "spades", rank := "7", faceUp := false },
              { suit := "spades", rank := "3", faceUp := false },
              { suit := "spades", rank := "4", faceUp := false }],
    ready := false, score := 0 }

def wSparse : GameG :=
  { base :=
      { id := "g"
        players :=
          [{ id := "p1", name := "A",
             cards := [{ suit := "clubs", rank := "2", faceUp := false },
                       { suit := "clubs", rank := "3", faceUp := false },
                       { suit := "clubs", rank := "4", faceUp := false },
                       { suit := "clubs", rank := "5", faceUp := false }],
             ready := false, score := 0 }, wSparseP2]
        deck := []
        discardPile := [{ suit := "hearts", rank := "7", faceUp := true }]
        drawnCards := []
        hasDrawnThisTurn := []
        pendingSpecialCard := ""
        currentPlayer := "p1"
        status := "playing"
        pabloCalled := false
        pabloCaller := ""
        stackableCardIndex := 0
        stackedSpecialCardPlayers := [] }
    pendingGive := none }

theorem sparseHandOnStackWitness :
    (stackSpec "p1" "p2" 1 wSparse).2 = true
    ∧ ∃ tp2, findPlayer (stackSpec "p1" "p2" 1 wSparse).1.base "p2" = some tp2 ∧
      tp2.cards.length = wSparseP2.cards.length ∧
      (tp2.cards.getD (1 : Int).toNat Card.emptyCard).rank = "" ∧
      (tp2.cards.getD (1 : Int).toNat Card.emptyCard).suit = "" ∧
      (∀ j, j ≠ (1 : Int).toNat →
        (tp2.cards.getD j Card.emptyCard).rank
          = (wSparseP2.cards.getD j Card.emptyCard).rank ∧
        (tp2.cards.getD j Card.emptyCard).suit
          = (wSparseP2.cards.getD j Card.emptyCard).suit) :=
  sparseHandOnStack wSparse "p1" "p2" 1 wSparseP2
    (by decide) (by decide) (by decide) (by decide) (by decide) (by decide)
    (by decide) (by decide)

def wQueue : Game :=
  { id := "g"
    players :=
      [{ id := "p1", name := "A",
         cards := List.replicate 4 { suit := "clubs", rank := "2", faceUp := false },
         ready := false, score := 0 },
       { id := "p3", name := "C",
         cards := List.replicate 4 { suit := "spades", rank := "3", faceUp := false },
         ready := false, score := 0 }]
    deck := []
    discardPile := [{ suit := "hearts", rank := "7", faceUp := true }]
    drawnCards := []
    hasDrawnThisTurn := []
    pendingSpecialCard := "7"
    currentPlayer := "p1"
    status := "playing"
    pabloCalled := false
    pabloCaller := ""
    stackableCardIndex := -1
    stackedSpecialCardPlayers := ["p3"] }

theorem deferredSpecialRightsQueueWitness :
    (useSpecialCardFromDiscard "p1" "7" SpecialParams.noParams wQueue).1.pendingSpecialCard
        = "7"
    ∧ (useSpecialCardFromDiscard "p1" "7" SpecialParams.noParams wQueue).1.currentPlayer
        = "p3"
    ∧ (useSpecialCardFromDiscard "p1" "7"
        SpecialParams.noParams wQueue).1.stackedSpecialCardPlayers = []
    ∧ (skipSpecialCard "p1" wQueue).pendingSpecialCard = "7"
    ∧ (skipSpecialCard "p1" wQueue).currentPlayer = "p3"
    ∧ (skipSpecialCard "p1" wQueue).stackedSpecialCardPlayers = [] :=
  (deferredSpecialRightsQueue wQueue "p1" "7" SpecialParams.noParams
    { suit := "hearts", rank := "7", faceUp := true }
    rfl (by decide) rfl rfl (Or.inl rfl)).2 "p3" [] rfl (by decide)

theorem informationHidingProjectionWitness :
    projectCard "alice" "bob" "playing" { suit := "hearts", rank := "A", faceUp := false }
      = some { suit := "", rank := "", faceUp := false } := by
  have h := (informationHidingProjection "alice" "bob" "playing"
    { suit := "hearts", rank := "A", faceUp := false }).1 (by decide) (by decide) rfl
  simpa using h

def wMal : Game :=
  { id := "g"
    players :=
      [{ id := "p1", name := "A",
         cards := List.replicate 4 { suit := "clubs", rank := "2", faceUp := false },
         ready := false, score := 0 },
       { id := "p2", name := "B",
         cards := List.replicate 4 { suit := "spades", rank := "3", faceUp := false },
         ready := false, score := 0 }]
    deck := []
    discardPile := [{ suit := "hearts", rank := "7", faceUp := true }]
    drawnCards := []
    hasDrawnThisTurn := []
    pendingSpecialCard := "7"
    currentPlayer := "p1"
    status := "playing"
    pabloCalled := false
    pabloCaller := ""
    stackableCardIndex := 0
    stackedSpecialCardPlayers := [] }

theorem silentSuccessOnMalformedSpecialParamsWitness :
    useSpecialCardFromDiscard "p1" "7" SpecialParams.noParams wMal
      = (specialQueueAdvance "7" { wMal with pendingSpecialCard := "" }, true, [])
    ∧ (useSpecialCardFromDiscard "p1" "7"
        { SpecialParams.noParams with targetIndex := some 0 } wMal).1
      = (useSpecialCardFromDiscard "p1" "7" SpecialParams.noParams wMal).1 :=
  silentSuccessOnMalformedSpecialParams wMal "p1" "7" SpecialParams.noParams
    { SpecialParams.noParams with targetIndex := some 0 }
    { suit := "hearts", rank := "7", faceUp := true }
    rfl rfl rfl rfl (Or.inl ⟨rfl, trivial⟩)

def wPenP1 : Player :=
  { id := "p1", name := "A",
    cards := [{ suit := "clubs", rank := "2", faceUp := false },
              { suit := "clubs", rank := "3", faceUp := false },
              { suit := "clubs", rank := "4", faceUp := false },
              { suit := "clubs", rank := "5", faceUp := false }],
    ready := false, score := 0 }

def wPen : Game :=
  { id := "g"
    players := [wPenP1]
    deck := [{ suit := "diamonds", rank := "9", faceUp := false }]
    discardPile := [{ suit := "hearts", rank := "A", faceUp := true }]
    drawnCards := []
    hasDrawnThisTurn := []
    pendingSpecialCard := ""
    currentPlayer := "p1"
    status := "playing"
    pabloCalled := false
    pabloCaller := ""
    stackableCardIndex := 0
    stackedSpecialCardPlayers := [] }

theorem failedStackPenaltyWitness :
    (stackCard "p1" 0 wPen).2 = false
    ∧ (stackCard "p1" 0 wPen).1.discardPile = wPen.discardPile
    ∧ (stackCard "p1" 0 wPen).1.stackableCardIndex = wPen.stackableCardIndex
    ∧ (stackCard "p1" 0 wPen).1.deck = []
    ∧ findPlayer (stackCard "p1" 0 wPen).1 "p1"
        = some { wPenP1 with cards := wPenP1.cards
            ++ [{ suit := "diamonds", rank := "9", faceUp := false }] }
    ∧ countNonEmpty (wPenP1.cards
          ++ [{ suit := "diamonds", rank := "9", faceUp := false }])
        = countNonEmpty wPenP1.cards + 1 :=
  (failedStackPenalty wPen "p1" 0 wPenP1
    (by decide) (by decide) (by decide) (by decide) (by decide) (by decide)
    (by decide) (by decide)).1
    { suit := "diamonds", rank := "9", faceUp := false } [] rfl (by decide)
